import Mathlib

/-!
Verification model of the audio-encoding pipeline of the `voj` backend
(`backend/app/services/encoding/`): the encoding job queue
(`encoding_queue.py`), the retry manager (`retry_manager.py`), the file
manager (`file_manager.py`), the FFmpeg service (`ffmpeg_service.py`) and
the environment configuration (`environment_config.py`).

Conventions of the embedding:
* Python strings are Lean `String`s; Python's `in` on strings is
  `strContains`, Python's `str.lower` is `lowerStr` (ASCII case folding,
  which covers every pattern and message the code compares).
* Python floats (delays, progress fractions) are rationals `ℚ`; no delay
  or progress computation in the code depends on rounding.
* Timestamps (`datetime.now(timezone.utc)`) are integers counting seconds
  and `(a - b).total_seconds()` is `a - b`: the code compares timestamp
  differences only against the whole-second windows 3600 and 24·3600, so
  sub-second precision changes no comparison a claim depends on.
* The in-memory job table `self.jobs : Dict[str, EncodingJob]` is a map
  `String → Option EncodingJob`; the FIFO `queue.Queue` of job ids is a
  `List String`.
* Filesystem and collaborator effects (directory creation, `os.remove`,
  `AudioChapter` updates, logging, callbacks) are external to the model;
  where a claim depends on such an effect the effect's outcome is an
  explicit parameter.
-/

/-! ## Strings: Python `in` (substring) and `str.lower` -/

/-- `listStartsWith needle hay`: `hay` begins with `needle`. -/
def listStartsWith : List Char → List Char → Bool
  | [], _ => true
  | _ :: _, [] => false
  | a :: as, b :: bs => a == b && listStartsWith as bs

/-- `listContainsSub needle hay`: `needle` occurs as a contiguous sublist of
`hay` (the semantics of Python's `needle in hay` on strings). -/
def listContainsSub (needle : List Char) : List Char → Bool
  | [] => needle.isEmpty
  | b :: bs => listStartsWith needle (b :: bs) || listContainsSub needle bs

/-- Python `needle in hay` for strings. -/
def strContains (hay needle : String) : Bool :=
  listContainsSub needle.data hay.data

/-- Python `str.lower` restricted to ASCII letters, which is all the code
compares (error messages and the fixed pattern lists). -/
def lowerChar (c : Char) : Char :=
  if 'A' ≤ c ∧ c ≤ 'Z' then Char.ofNat (c.toNat + 32) else c

/-- Python `str.lower` on a whole string. -/
def lowerStr (s : String) : String :=
  ⟨s.data.map lowerChar⟩

/-! ## Data model: `EncodingStatus`, `EncodingJob` (encoding_queue.py 24-49) -/

/-- `EncodingStatus` enum (encoding_queue.py lines 24-30). -/
inductive EncodingStatus where
  | pending
  | processing
  | completed
  | failed
  | cancelled
deriving DecidableEq, Repr

/-- `EncodingJob` dataclass (encoding_queue.py lines 33-49). The timestamp
fields (`created_at`, `started_at`, `completed_at`) and the `metadata` map
are omitted: no claim mentions them. `progress` is the 0.0-1.0 fraction. -/
structure EncodingJob where
  job_id : String
  chapter_id : String
  book_id : String
  input_path : String
  output_path : String
  status : EncodingStatus
  error_message : Option String := none
  retry_count : Nat := 0
  max_retries : Nat := 3
  progress : ℚ := 0
deriving DecidableEq, Repr

/-! ## Retry manager (retry_manager.py) -/

/-- `RetryPolicy` dataclass (retry_manager.py lines 25-32), with its
defaults `max_retries=3`, `base_delay=1.0`, `max_delay=60.0`,
`backoff_multiplier=2.0`, `failure_threshold=5`. -/
structure RetryPolicy where
  max_retries : Nat := 3
  base_delay : ℚ := 1
  max_delay : ℚ := 60
  backoff_multiplier : ℚ := 2
  failure_threshold : Nat := 5
deriving DecidableEq, Repr

/-- `FailureType` enum (retry_manager.py lines 18-22). -/
inductive FailureType where
  | temporary
  | permanent
  | recoverable
deriving DecidableEq, Repr

/-- `FailureAnalysis` dataclass (retry_manager.py lines 35-42). -/
structure FailureAnalysis where
  failure_type : FailureType
  is_retryable : Bool
  suggested_delay : ℚ
  recovery_action : Option String := none
  error_category : String := "unknown"
deriving DecidableEq, Repr

/-- The temporary-failure pattern list (retry_manager.py lines 64-71). -/
def temporary_patterns : List String :=
  ["timeout", "network", "connection", "temporary", "busy", "locked"]

/-- The permanent-failure pattern list (retry_manager.py lines 74-81). -/
def permanent_patterns : List String :=
  ["not found", "permission denied", "invalid format", "corrupted",
   "unsupported", "codec not found"]

/-- The recoverable-failure pattern list (retry_manager.py lines 84-89). -/
def recoverable_patterns : List String :=
  ["disk space", "memory", "resource", "quota"]

/-- A `for pattern in patterns: if pattern in error_message:` loop finds a
match exactly when some pattern of the list occurs in the message. -/
def matchesAny (patterns : List String) (error_message : String) : Bool :=
  patterns.any (fun pat => strContains error_message pat)

/-- `EncodingRetryManager._calculate_delay` (retry_manager.py lines
130-135): `min(base_delay * backoff_multiplier ** retry_count, max_delay)`. -/
def calculate_delay (p : RetryPolicy) (retry_count : Nat) : ℚ :=
  min (p.base_delay * p.backoff_multiplier ^ retry_count) p.max_delay

/-- `EncodingRetryManager.analyze_failure` (retry_manager.py lines 59-128):
lowercase the job's error message (empty when `None`), try the permanent
patterns first, then the recoverable ones, then the temporary ones, and
fall through to an "unknown" temporary analysis whose retryability is
`retry_count < max_retries`. -/
def analyze_failure (p : RetryPolicy) (job : EncodingJob) : FailureAnalysis :=
  let error_message := lowerStr (job.error_message.getD "")
  if matchesAny permanent_patterns error_message then
    { failure_type := .permanent
      is_retryable := false
      suggested_delay := 0
      error_category := "permanent"
      recovery_action := some "Check input file and format" }
  else if matchesAny recoverable_patterns error_message then
    { failure_type := .recoverable
      is_retryable := true
      suggested_delay := calculate_delay p job.retry_count * 2
      error_category := "recoverable"
      recovery_action := some "Check system resources and try again" }
  else if matchesAny temporary_patterns error_message then
    { failure_type := .temporary
      is_retryable := true
      suggested_delay := calculate_delay p job.retry_count
      error_category := "temporary"
      recovery_action := some "Automatic retry will be attempted" }
  else
    { failure_type := .temporary
      is_retryable := decide (job.retry_count < p.max_retries)
      suggested_delay := calculate_delay p job.retry_count
      error_category := "unknown" }

/-- The failure history `self.failure_history : Dict[str, List[datetime]]`
of `EncodingRetryManager`, as a map from chapter id to the list of failure
timestamps (seconds). A chapter with no entry reads as the empty list. -/
def FailureHistory : Type := String → List Int

/-- The manager starts with an empty failure history. -/
def emptyHistory : FailureHistory := fun _ => []

/-- The failures of the trailing hour: the filter
`(datetime.now(timezone.utc) - f).total_seconds() < 3600` used by
`should_retry_automatically` (retry_manager.py lines 151-154). -/
def recentFailures (now : Int) (failures : List Int) : List Int :=
  failures.filter (fun f => now - f < 3600)

/-- `EncodingRetryManager.should_retry_automatically` (retry_manager.py
lines 137-163): false when the retry count has reached `max_retries`,
false when the failure analysis is not retryable, false when the chapter
accumulated at least `failure_threshold` failures in the trailing hour;
true otherwise. `now` is the evaluation time, `hist` the failure history. -/
def should_retry_automatically (p : RetryPolicy) (hist : FailureHistory)
    (now : Int) (job : EncodingJob) : Bool :=
  if p.max_retries ≤ job.retry_count then false
  else if !(analyze_failure p job).is_retryable then false
  else if p.failure_threshold ≤ (recentFailures now (hist job.chapter_id)).length then false
  else true

/-- `EncodingRetryManager.record_failure` (retry_manager.py lines 165-178):
append the current timestamp to the job's chapter history, then prune
entries older than 24 hours. -/
def record_failure (hist : FailureHistory) (now : Int) (job : EncodingJob) :
    FailureHistory :=
  fun c =>
    if c = job.chapter_id then
      (hist job.chapter_id ++ [now]).filter (fun f => now - 24 * 3600 < f)
    else hist c

/-- `EncodingRetryManager.clear_failure_history` for one chapter
(retry_manager.py lines 274-282): drop that chapter's entries. -/
def clear_failure_history (hist : FailureHistory) (chapter_id : String) :
    FailureHistory :=
  fun c => if c = chapter_id then [] else hist c

/-! ## Encoding queue (encoding_queue.py): job table and operations -/

/-- The queue's mutable state: the job table `self.jobs` and the FIFO of
job ids `self.job_queue` (encoding_queue.py lines 70-71). -/
structure QueueState where
  jobs : String → Option EncodingJob
  job_queue : List String

/-- The queue before any submission. -/
def emptyQueue : QueueState :=
  { jobs := fun _ => none, job_queue := [] }

/-- `EncodingQueue.submit_job` (encoding_queue.py lines 131-150): create a
`PENDING` job with `retry_count = 0`, `progress = 0.0` and no error, store
it under a fresh id (`uuid.uuid4()`, supplied here as `job_id`) and
enqueue the id. -/
def submit_job (s : QueueState) (job_id chapter_id book_id input_path output_path : String) :
    QueueState :=
  let job : EncodingJob :=
    { job_id := job_id, chapter_id := chapter_id, book_id := book_id
      input_path := input_path, output_path := output_path
      status := .pending }
  { jobs := fun i => if i = job_id then some job else s.jobs i
    job_queue := s.job_queue ++ [job_id] }

/-- `EncodingQueue.cancel_job` (encoding_queue.py lines 167-175): set the
job to `CANCELLED` and return `True` when it exists and is `PENDING`;
otherwise change nothing and return `False`. -/
def cancel_job (s : QueueState) (job_id : String) : QueueState × Bool :=
  match s.jobs job_id with
  | some job =>
    if job.status = .pending then
      ({ s with jobs := fun i =>
          if i = job_id then some { job with status := .cancelled } else s.jobs i },
       true)
    else (s, false)
  | none => (s, false)

/-- `EncodingQueue.retry_job` (encoding_queue.py lines 177-189): when the
job exists, is `FAILED` and `retry_count < max_retries`, set it back to
`PENDING`, increment `retry_count`, clear `error_message`, reset
`progress` to 0.0, re-enqueue the id and return `True`; otherwise change
nothing and return `False`. -/
def retry_job (s : QueueState) (job_id : String) : QueueState × Bool :=
  match s.jobs job_id with
  | some job =>
    if job.status = .failed ∧ job.retry_count < job.max_retries then
      let job' : EncodingJob :=
        { job with
          status := .pending
          retry_count := job.retry_count + 1
          error_message := none
          progress := 0 }
      ({ jobs := fun i => if i = job_id then some job' else s.jobs i
         job_queue := s.job_queue ++ [job_id] },
       true)
    else (s, false)
  | none => (s, false)

/-- The error message `_process_job` actually stores. Its body first
touches the name `os` at `if not os.path.exists(job.input_path)`
(encoding_queue.py line 230), but `encoding_queue.py` never imports `os`
(its imports are lines 4-21), so that line raises
`NameError: name 'os' is not defined`; the handler at lines 297-300
formats it as `f"Processing error: {str(e)}"`. -/
def processing_error_message : String :=
  "Processing error: name 'os' is not defined"

/-- `EncodingQueue._process_job` (encoding_queue.py lines 209-314). A job
that is absent or not `PENDING` is left alone (lines 211-214). Otherwise
the worker sets `PROCESSING` with `progress = 0.1` (lines 216-218),
creates directories via the file manager (line 227, `os` is imported
there), and then evaluates `os.path.exists(job.input_path)` (line 230) —
which raises `NameError` because this module never imports `os`, before
the input file's existence can influence anything. The `except` branch
(lines 297-300) then sets `FAILED` with
`"Processing error: name 'os' is not defined"`; `progress` keeps its last
checkpoint 0.1. The chapter update and temp cleanup are external effects. -/
def process_job (s : QueueState) (job_id : String) : QueueState :=
  match s.jobs job_id with
  | some job =>
    if job.status = .pending then
      { s with jobs := fun i =>
          if i = job_id then
            some { job with
                   status := .failed
                   error_message := some processing_error_message
                   progress := 1/10 }
          else s.jobs i }
    else s
  | none => s

/-! ## Queue transitions and reachability (for the progress invariant) -/

/-- One state change of the job table: a submission with a fresh id, a
cancellation, a retry, or a worker processing one dequeued job. -/
inductive QStep : QueueState → QueueState → Prop where
  | submit (s : QueueState) (job_id chapter_id book_id input_path output_path : String)
      (fresh : s.jobs job_id = none) :
      QStep s (submit_job s job_id chapter_id book_id input_path output_path)
  | cancel (s : QueueState) (job_id : String) :
      QStep s (cancel_job s job_id).fst
  | retry (s : QueueState) (job_id : String) :
      QStep s (retry_job s job_id).fst
  | process (s : QueueState) (job_id : String) :
      QStep s (process_job s job_id)

/-- States reachable from the empty queue by queue operations and worker
steps. -/
def ReachableQ (s : QueueState) : Prop :=
  Relation.ReflTransGen QStep emptyQueue s

/-- The status/progress invariant of the job table: pending and cancelled
jobs sit at progress 0, completed jobs at 1, failed jobs at the 0.1
checkpoint where every processing attempt dies (see `process_job`). -/
def JobProgressInv (j : EncodingJob) : Prop :=
  (j.status = .pending → j.progress = 0) ∧
  (j.status = .cancelled → j.progress = 0) ∧
  (j.status = .completed → j.progress = 1) ∧
  (j.status = .failed → j.progress = 1/10)

/-- A job is terminal when it is completed, cancelled, or failed with its
retries exhausted. -/
def isTerminal (j : EncodingJob) : Prop :=
  j.status = .completed ∨ j.status = .cancelled ∨
    (j.status = .failed ∧ j.max_retries ≤ j.retry_count)

instance (j : EncodingJob) : Decidable (isTerminal j) := by
  unfold isTerminal; infer_instance

/-! ## File manager (file_manager.py): temp-file cleanup -/

/-- A file of a book's shared temp directory, as `cleanup_temp_files` sees
it: its name (one entry of `os.listdir(temp_dir)`) and its size in bytes. -/
structure TempFile where
  name : String
  size : Nat
deriving DecidableEq, Repr

/-- `EncodingFileManager.cleanup_temp_files` (file_manager.py lines
163-186): walk the group's temp directory and delete exactly the files
whose name contains the chapter id (`if chapter_id in filename`), counting
them. The directory is the one `get_file_paths` derives from the book id;
`os.remove` is assumed to succeed (its failure branch only skips the
count). Returns the directory contents after the call and `removed_count`. -/
def cleanup_temp_files (chapter_id : String) (temp_dir : List TempFile) :
    List TempFile × Nat :=
  (temp_dir.filter (fun f => !strContains f.name chapter_id),
   (temp_dir.filter (fun f => strContains f.name chapter_id)).length)

/-! ## FFmpeg service (ffmpeg_service.py) and environment configuration -/

/-- `EncodingConfig` dataclass (ffmpeg_service.py lines 19-31), with the
`__post_init__` default for `additional_options`. -/
structure EncodingConfig where
  output_format : String := "m4a"
  codec : String := "aac"
  bitrate : String := "56k"
  sample_rate : Nat := 44100
  channels : Nat := 1
  additional_options : List String := ["-movflags", "+faststart"]
deriving DecidableEq, Repr

/-- `EncodingResult` dataclass (ffmpeg_service.py lines 34-43), without
the `metadata` map and `processing_time` (no claim mentions them). -/
structure EncodingResult where
  success : Bool
  output_path : Option String := none
  error : Option String := none
  original_size : Nat := 0
  encoded_size : Nat := 0
deriving DecidableEq, Repr

/-- The outcome of the external `subprocess.run` invocation inside
`encode_audio`: the process finished in time (and the output file exists
or not), the hard timeout expired (`subprocess.TimeoutExpired`), or the
process exited non-zero (`subprocess.CalledProcessError` with an optional
stderr text). -/
inductive SubprocessOutcome where
  | finished (outputExists : Bool) (encodedSize : Nat)
  | timedOut
  | calledProcessError (stderr : Option String) (returncode : Int)
deriving DecidableEq, Repr

/-- The `timeout=` argument `encode_audio` passes to `subprocess.run`
(ffmpeg_service.py line 128), as a function of the service's injected
`EncodingConfig` (`self.config`): the source passes the literal `300`
("5분 타임아웃"), reading no field of any configuration object. -/
def encode_audio_subprocess_timeout (_config : EncodingConfig) : Nat := 300

/-- `FFmpegEncodingService.encode_audio` (ffmpeg_service.py lines 91-179)
with an explicit output path. Returns failure with
`"Input file not found: ..."` when the input is missing (lines 106-110);
otherwise runs the transcoder and maps its outcome: a missing output file
is a failure (lines 133-137), a timeout is reported as the failure string
`"Encoding timeout (exceeded 5 minutes)"` (lines 164-168) rather than
raised, a non-zero exit becomes `"FFmpeg failed: ..."` or
`"FFmpeg exit code: ..."` (lines 169-174). Metadata extraction on success
is an external effect and is omitted. -/
def encode_audio (_config : EncodingConfig) (input_path output_path : String)
    (inputExists : Bool) (originalSize : Nat) (outcome : SubprocessOutcome) :
    EncodingResult :=
  if !inputExists then
    { success := false, error := some ("Input file not found: " ++ input_path) }
  else
    match outcome with
    | .finished outputExists encodedSize =>
      if !outputExists then
        { success := false
          error := some "Encoding completed but output file not found" }
      else
        { success := true
          output_path := some output_path
          original_size := originalSize
          encoded_size := encodedSize }
    | .timedOut =>
      { success := false, error := some "Encoding timeout (exceeded 5 minutes)" }
    | .calledProcessError stderr returncode =>
      match stderr with
      | some msg => { success := false, error := some ("FFmpeg failed: " ++ msg) }
      | none =>
        { success := false
          error := some ("FFmpeg exit code: " ++ toString returncode) }

/-- `EnvironmentEncodingConfig` dataclass (environment_config.py lines
22-47): the per-profile tunables, including the `encoding_timeout` field
(seconds). -/
structure EnvironmentEncodingConfig where
  encoding_config : EncodingConfig
  max_workers : Nat
  max_queue_size : Nat
  max_retries : Nat
  base_delay : ℚ
  max_delay : ℚ
  cleanup_temp_files_hours : Nat
  archive_original_files : Bool
  encoding_timeout : Nat
  concurrent_jobs_per_book : Nat
  enable_detailed_logging : Bool
  enable_metrics : Bool
deriving DecidableEq, Repr

/-- `EnvironmentConfigManager._create_local_config` (environment_config.py
lines 76-109). -/
def local_config : EnvironmentEncodingConfig :=
  { encoding_config :=
      { output_format := "m4a", codec := "aac", bitrate := "64k"
        sample_rate := 44100, channels := 1
        additional_options := ["-movflags", "+faststart", "-preset", "fast"] }
    max_workers := 2, max_queue_size := 10
    max_retries := 2, base_delay := 1, max_delay := 30
    cleanup_temp_files_hours := 1, archive_original_files := false
    encoding_timeout := 300, concurrent_jobs_per_book := 1
    enable_detailed_logging := true, enable_metrics := true }

/-- `EnvironmentConfigManager._create_production_config`
(environment_config.py lines 111-148). -/
def production_config : EnvironmentEncodingConfig :=
  { encoding_config :=
      { output_format := "m4a", codec := "aac", bitrate := "56k"
        sample_rate := 44100, channels := 1
        additional_options := ["-movflags", "+faststart", "-preset", "medium",
                               "-profile:a", "aac_low"] }
    max_workers := 4, max_queue_size := 100
    max_retries := 5, base_delay := 2, max_delay := 300
    cleanup_temp_files_hours := 24, archive_original_files := true
    encoding_timeout := 1800, concurrent_jobs_per_book := 2
    enable_detailed_logging := false, enable_metrics := true }

/-- `EnvironmentConfigManager._create_staging_config`
(environment_config.py lines 150-159): the production config with detailed
logging, `max_retries = 3` and `encoding_timeout = 900`. -/
def staging_config : EnvironmentEncodingConfig :=
  { production_config with
    enable_detailed_logging := true
    max_retries := 3
    encoding_timeout := 900 }

/-! ## Invariant lemmas shared by the progress theorems -/

/-- Every queue transition preserves the status/progress invariant of each
job of the table. -/
theorem qstep_preserves_inv {s s' : QueueState} (h : QStep s s')
    (hs : ∀ i j, s.jobs i = some j → JobProgressInv j) :
    ∀ i j, s'.jobs i = some j → JobProgressInv j := by
  intro i j hj
  cases h with
  | submit job_id chapter_id book_id input_path output_path fresh =>
    simp only [submit_job] at hj
    split at hj
    · cases hj
      simp [JobProgressInv]
    · exact hs i j hj
  | cancel job_id =>
    simp only [cancel_job] at hj
    split at hj
    case h_1 job0 heq =>
      split at hj
      case isTrue hpend =>
        simp only at hj
        split at hj
        · cases hj
          have h0 := hs job_id job0 heq
          simp [JobProgressInv] at h0 ⊢
          exact h0.1 hpend
        · exact hs i j hj
      case isFalse => exact hs i j hj
    case h_2 => exact hs i j hj
  | retry job_id =>
    simp only [retry_job] at hj
    split at hj
    case h_1 job0 heq =>
      split at hj
      case isTrue hcond =>
        simp only at hj
        split at hj
        · cases hj
          simp [JobProgressInv]
        · exact hs i j hj
      case isFalse => exact hs i j hj
    case h_2 => exact hs i j hj
  | process job_id =>
    simp only [process_job] at hj
    split at hj
    case h_1 job0 heq =>
      split at hj
      case isTrue hpend =>
        simp only at hj
        split at hj
        · cases hj
          simp [JobProgressInv]
        · exact hs i j hj
      case isFalse => exact hs i j hj
    case h_2 => exact hs i j hj

/-- Every job of a reachable queue state satisfies the status/progress
invariant. -/
theorem reachable_inv {s : QueueState} (h : ReachableQ s) :
    ∀ i j, s.jobs i = some j → JobProgressInv j := by
  induction h with
  | refl => intro i j hj; simp [emptyQueue] at hj
  | tail _ hbc ih => exact qstep_preserves_inv hbc ih

/-! ## C1 — a job submitted with a nonexistent input path -/

/-- The queue after submitting a job whose input path names no existing
file (claim C1's scenario; the model's outcome is the same for every
input path, which is exactly the divergence). -/
def c1_state : QueueState :=
  submit_job emptyQueue "job-1" "chapter-1" "book-1"
    "/storage/book/book-1/uploads/missing-input.wav"
    "/storage/book/book-1/media/missing-input.m4a"

/-- C1 (code bug, evaluation at the failing input): processing the job
with the nonexistent input path leaves it Failed with the error
"Processing error: name 'os' is not defined" — `encoding_queue.py` never
imports `os`, so the input-existence check itself raises `NameError`
before the intended `FileNotFoundError("Input file not found: ...")` can
be reached.  The stored message does not contain "not found",
`analyze_failure` classifies the failure Temporary (category "unknown"),
not Permanent, and `should_retry_automatically` returns true, not false —
against the claim and the code's own intent. -/
theorem c1_missing_input_name_error :
    ((process_job c1_state "job-1").jobs "job-1").map
        (fun j => (j.status, j.error_message,
          strContains (lowerStr (j.error_message.getD "")) "not found",
          (analyze_failure {} j).failure_type,
          should_retry_automatically {} emptyHistory 0 j))
      = some (.failed, some processing_error_message, false, .temporary, true) := by
  decide

/-! ## C2 — the maxRetries=3 / failureThreshold=5 scenario -/

/-- Claim C2's policy: `maxRetries = 3`, `failureThreshold = 5`, default
delays. -/
def c2_policy : RetryPolicy := { max_retries := 3, failure_threshold := 5 }

/-- The scenario's job after `retries` retries: Failed with a "timeout"
error. -/
def c2_job (retries : Nat) : EncodingJob :=
  { job_id := "job-2", chapter_id := "chapter-2", book_id := "book-2"
    input_path := "/in.wav", output_path := "/out.m4a"
    status := .failed, error_message := some "timeout"
    retry_count := retries, progress := 1/10 }

/-- The failure history after the n-th consecutive failure, each recorded
by `record_failure` ten minutes after the previous one (all within one
hour). -/
def c2_hist : Nat → FailureHistory
  | 0 => emptyHistory
  | n + 1 => record_failure (c2_hist n) (600 * (n : Int)) (c2_job n)

/-- C2 counterexample: after the fourth consecutive "timeout" failure
(retry count 3, four failures recorded within the hour),
`should_retry_automatically` is false — but the recent-failure count is 4,
below `failureThreshold = 5`, so the circuit breaker has not tripped, and
clearing the chapter's failure history still leaves the answer false.
The suppression the claim attributes to the circuit breaker and to
uncleared history is in fact the retry-count ceiling. -/
theorem c2_fourth_failure_not_circuit_breaker :
    should_retry_automatically c2_policy (c2_hist 4) 1800 (c2_job 3) = false
  ∧ (recentFailures 1800 ((c2_hist 4) "chapter-2")).length = 4
  ∧ ¬ c2_policy.failure_threshold ≤ 4
  ∧ should_retry_automatically c2_policy
      (clear_failure_history (c2_hist 4) "chapter-2") 1800 (c2_job 3) = false := by
  decide

/-- C2 amended: retries proceed after the first, second and third
consecutive "timeout" failures (the third retry still proceeds); after the
fourth failure automatic retry is suppressed by the retry-count ceiling
(`retry_count = 3 ≥ maxRetries = 3`) while the circuit breaker has not
tripped (4 recent failures < `failureThreshold = 5`), and clearing the
failure history does not re-enable automatic retry. -/
theorem c2_retry_ceiling_scenario :
    should_retry_automatically c2_policy (c2_hist 1) 0 (c2_job 0) = true
  ∧ should_retry_automatically c2_policy (c2_hist 2) 600 (c2_job 1) = true
  ∧ should_retry_automatically c2_policy (c2_hist 3) 1200 (c2_job 2) = true
  ∧ should_retry_automatically c2_policy (c2_hist 4) 1800 (c2_job 3) = false
  ∧ c2_policy.max_retries ≤ (c2_job 3).retry_count
  ∧ (recentFailures 1800 ((c2_hist 4) "chapter-2")).length < c2_policy.failure_threshold
  ∧ should_retry_automatically c2_policy
      (clear_failure_history (c2_hist 4) "chapter-2") 1800 (c2_job 3) = false := by
  decide

/-! ## C3 — retry_job -/

/-- C3: for every job of the job table, `retry_job` returns true exactly
when the job is Failed with `retry_count < max_retries`; when it returns
true it sets the job back to Pending, increments `retry_count`, clears
`error_message` (and resets `progress`) and re-enqueues the job id; when
it returns false the queue state — the job record included — is
unchanged. -/
theorem c3_retry_job_spec (s : QueueState) (job_id : String) (job : EncodingJob)
    (hjob : s.jobs job_id = some job) :
    ((retry_job s job_id).snd = true ↔
      job.status = .failed ∧ job.retry_count < job.max_retries)
  ∧ ((retry_job s job_id).snd = true →
      (retry_job s job_id).fst.jobs job_id =
        some { job with
               status := .pending
               retry_count := job.retry_count + 1
               error_message := none
               progress := 0 }
      ∧ (retry_job s job_id).fst.job_queue = s.job_queue ++ [job_id])
  ∧ ((retry_job s job_id).snd = false → (retry_job s job_id).fst = s) := by
  by_cases hc : job.status = .failed ∧ job.retry_count < job.max_retries
  · simp [retry_job, hjob, hc]
  · simp [retry_job, hjob, hc]

/-- A failed job with one retry left, fixture for C3's witness. -/
def c3_job : EncodingJob :=
  { job_id := "job-3", chapter_id := "chapter-3", book_id := "book-3"
    input_path := "/in3.wav", output_path := "/out3.m4a"
    status := .failed, error_message := some processing_error_message
    retry_count := 1, progress := 1/10 }

/-- A queue holding only `c3_job`, fixture for C3's witness. -/
def c3_state : QueueState :=
  { jobs := fun i => if i = "job-3" then some c3_job else none
    job_queue := [] }

/-- C3 witness: `c3_retry_job_spec` applied to the concrete queue holding
the failed job `c3_job` (status Failed, retry count 1 of 3). -/
theorem c3_retry_job_witness :
    ((retry_job c3_state "job-3").snd = true ↔
      c3_job.status = .failed ∧ c3_job.retry_count < c3_job.max_retries)
  ∧ ((retry_job c3_state "job-3").snd = true →
      (retry_job c3_state "job-3").fst.jobs "job-3" =
        some { c3_job with
               status := .pending
               retry_count := c3_job.retry_count + 1
               error_message := none
               progress := 0 }
      ∧ (retry_job c3_state "job-3").fst.job_queue = c3_state.job_queue ++ ["job-3"])
  ∧ ((retry_job c3_state "job-3").snd = false →
      (retry_job c3_state "job-3").fst = c3_state) :=
  c3_retry_job_spec c3_state "job-3" c3_job rfl

/-! ## C4 — cancel_job -/

/-- C4: `cancel_job` returns true exactly when the job exists and is
Pending at call time, in which case the job becomes Cancelled; for a job
in any other state, and for an unknown job id, it returns false and the
queue state — the job record included — is unchanged. -/
theorem c4_cancel_job_spec (s : QueueState) (job_id : String) :
    ((cancel_job s job_id).snd = true ↔
      ∃ job, s.jobs job_id = some job ∧ job.status = .pending)
  ∧ (∀ job, s.jobs job_id = some job → job.status = .pending →
      (cancel_job s job_id).fst.jobs job_id = some { job with status := .cancelled })
  ∧ ((cancel_job s job_id).snd = false → (cancel_job s job_id).fst = s) := by
  rcases hm : s.jobs job_id with _ | job
  · simp [cancel_job, hm]
  · by_cases hp : job.status = .pending
    · simp [cancel_job, hm, hp]
    · simp [cancel_job, hm, hp]

/-- A pending job, fixture for C4's witness. -/
def c4_job : EncodingJob :=
  { job_id := "job-4", chapter_id := "chapter-4", book_id := "book-4"
    input_path := "/in4.wav", output_path := "/out4.m4a"
    status := .pending }

/-- A queue holding only the pending `c4_job`, fixture for C4's witness. -/
def c4_state : QueueState :=
  { jobs := fun i => if i = "job-4" then some c4_job else none
    job_queue := ["job-4"] }

/-- C4 witness: `c4_cancel_job_spec` applied to the concrete queue holding
the pending job `c4_job`. -/
theorem c4_cancel_job_witness :
    ((cancel_job c4_state "job-4").snd = true ↔
      ∃ job, c4_state.jobs "job-4" = some job ∧ job.status = .pending)
  ∧ (∀ job, c4_state.jobs "job-4" = some job → job.status = .pending →
      (cancel_job c4_state "job-4").fst.jobs "job-4" =
        some { job with status := .cancelled })
  ∧ ((cancel_job c4_state "job-4").snd = false →
      (cancel_job c4_state "job-4").fst = c4_state) :=
  c4_cancel_job_spec c4_state "job-4"

/-! ## C5 — progress along queue operations -/

/-- The job as `submit_job` creates it in claim C5's trace. -/
def c5_sub_job : EncodingJob :=
  { job_id := "job-5", chapter_id := "chapter-5", book_id := "book-5"
    input_path := "/in5.wav", output_path := "/out5.m4a", status := .pending }

/-- The job after its processing attempt fails (progress at the 0.1
checkpoint). -/
def c5_failed_job : EncodingJob :=
  { c5_sub_job with
    status := .failed
    error_message := some processing_error_message
    progress := 1/10 }

/-- The job after `retry_job` re-queues it: progress reset to 0. -/
def c5_retried_job : EncodingJob :=
  { c5_failed_job with
    status := .pending, retry_count := 1, error_message := none, progress := 0 }

/-- The queue after submitting claim C5's job. -/
def c5_state0 : QueueState :=
  submit_job emptyQueue "job-5" "chapter-5" "book-5" "/in5.wav" "/out5.m4a"

/-- The queue after the worker's processing attempt fails. -/
def c5_state1 : QueueState := process_job c5_state0 "job-5"

/-- The queue after `retry_job` re-queues the failed job. -/
def c5_state2 : QueueState := (retry_job c5_state1 "job-5").fst

/-- C5 counterexample: along the operation sequence submit → process →
retry, the job's progress goes from 1/10 (after the failed attempt) down
to 0 (after `retry_job` re-queues it) although the job is never in a
terminal state — Failed with retry count 0 of 3 is not exhausted, and
Pending is not terminal — so progress is not non-decreasing until a
terminal state is reached. -/
theorem c5_progress_reset_counterexample :
    c5_state1.jobs "job-5" = some c5_failed_job
  ∧ c5_state2.jobs "job-5" = some c5_retried_job
  ∧ ¬ isTerminal c5_failed_job
  ∧ ¬ isTerminal c5_retried_job
  ∧ c5_retried_job.progress < c5_failed_job.progress := by
  refine ⟨rfl, rfl, by decide, by decide, ?_⟩
  show (0 : ℚ) < 1/10
  norm_num

/-- C5 amended: across every single queue operation or worker step from a
reachable state, a job's progress is non-decreasing unless the step is
`retry_job` moving the job from Failed back to Pending, which resets
progress to 0 and increments the retry count; moreover a cancelled job's
progress is 0 (it was cancelled before starting), a completed job's
progress is 1, and a failed job's progress sits at the checkpoint its
attempt reached (1/10 — every attempt of the current code dies at the 0.1
checkpoint, see `process_job`). -/
theorem c5_progress_step_spec (s s' : QueueState) (hreach : ReachableQ s)
    (hstep : QStep s s') (i : String) (j j' : EncodingJob)
    (hj : s.jobs i = some j) (hj' : s'.jobs i = some j') :
    (j.progress ≤ j'.progress ∨
      (j.status = .failed ∧ j'.status = .pending ∧ j'.progress = 0 ∧
       j'.retry_count = j.retry_count + 1))
  ∧ (j'.status = .cancelled → j'.progress = 0)
  ∧ (j'.status = .completed → j'.progress = 1)
  ∧ (j'.status = .failed → j'.progress = 1/10) := by
  have hinv := reachable_inv hreach
  have hinv' := qstep_preserves_inv hstep hinv i j' hj'
  refine ⟨?_, hinv'.2.1, hinv'.2.2.1, hinv'.2.2.2⟩
  cases hstep with
  | submit job_id chapter_id book_id input_path output_path fresh =>
    simp only [submit_job] at hj'
    split at hj'
    case isTrue hii =>
      subst hii
      rw [fresh] at hj
      cases hj
    case isFalse =>
      rw [hj] at hj'
      cases hj'
      exact Or.inl le_rfl
  | cancel job_id =>
    simp only [cancel_job] at hj'
    split at hj'
    case h_1 job0 heq =>
      split at hj'
      case isTrue hpend =>
        simp only at hj'
        split at hj'
        case isTrue hii =>
          subst hii
          rw [hj] at heq
          cases heq
          cases hj'
          exact Or.inl le_rfl
        case isFalse =>
          rw [hj] at hj'
          cases hj'
          exact Or.inl le_rfl
      case isFalse =>
        rw [hj] at hj'
        cases hj'
        exact Or.inl le_rfl
    case h_2 =>
      rw [hj] at hj'
      cases hj'
      exact Or.inl le_rfl
  | retry job_id =>
    simp only [retry_job] at hj'
    split at hj'
    case h_1 job0 heq =>
      split at hj'
      case isTrue hcond =>
        simp only at hj'
        split at hj'
        case isTrue hii =>
          subst hii
          rw [hj] at heq
          cases heq
          cases hj'
          exact Or.inr ⟨hcond.1, rfl, rfl, rfl⟩
        case isFalse =>
          rw [hj] at hj'
          cases hj'
          exact Or.inl le_rfl
      case isFalse =>
        rw [hj] at hj'
        cases hj'
        exact Or.inl le_rfl
    case h_2 =>
      rw [hj] at hj'
      cases hj'
      exact Or.inl le_rfl
  | process job_id =>
    simp only [process_job] at hj'
    split at hj'
    case h_1 job0 heq =>
      split at hj'
      case isTrue hpend =>
        simp only at hj'
        split at hj'
        case isTrue hii =>
          subst hii
          rw [hj] at heq
          cases heq
          cases hj'
          have h0 : j.progress = 0 := (hinv i j hj).1 hpend
          rw [h0]
          exact Or.inl (by norm_num)
        case isFalse =>
          rw [hj] at hj'
          cases hj'
          exact Or.inl le_rfl
      case isFalse =>
        rw [hj] at hj'
        cases hj'
        exact Or.inl le_rfl
    case h_2 =>
      rw [hj] at hj'
      cases hj'
      exact Or.inl le_rfl

/-- The state with claim C5's submitted job is reachable in one step. -/
theorem c5_state0_reachable : ReachableQ c5_state0 :=
  Relation.ReflTransGen.single
    (QStep.submit emptyQueue "job-5" "chapter-5" "book-5" "/in5.wav" "/out5.m4a" rfl)

/-- C5 witness: `c5_progress_step_spec` applied to the concrete processing
step that takes the submitted job `c5_sub_job` to the failed job
`c5_failed_job`. -/
theorem c5_progress_step_witness :
    (c5_sub_job.progress ≤ c5_failed_job.progress ∨
      (c5_sub_job.status = .failed ∧ c5_failed_job.status = .pending ∧
       c5_failed_job.progress = 0 ∧
       c5_failed_job.retry_count = c5_sub_job.retry_count + 1))
  ∧ (c5_failed_job.status = .cancelled → c5_failed_job.progress = 0)
  ∧ (c5_failed_job.status = .completed → c5_failed_job.progress = 1)
  ∧ (c5_failed_job.status = .failed → c5_failed_job.progress = 1/10) :=
  c5_progress_step_spec c5_state0 c5_state1 c5_state0_reachable
    (QStep.process c5_state0 "job-5") "job-5" c5_sub_job c5_failed_job rfl rfl

/-! ## C6 — the ordering of the failure-pattern lists -/

/-- C6: `analyze_failure` tries the permanent patterns on the lowercased
error text first and on any match returns a non-retryable analysis with
suggested delay 0 — whether or not the text also matches recoverable or
temporary patterns; otherwise the recoverable patterns, returning a
retryable analysis whose suggested delay is twice the computed backoff
delay; otherwise the temporary patterns, with the standard backoff delay;
a text matching none of the lists is classified Temporary with
`is_retryable` true exactly when `retry_count < max_retries`. -/
theorem c6_analyze_failure_ordering (p : RetryPolicy) (job : EncodingJob) :
    let msg := lowerStr (job.error_message.getD "")
    (matchesAny permanent_patterns msg = true →
       (analyze_failure p job).failure_type = .permanent ∧
       (analyze_failure p job).is_retryable = false ∧
       (analyze_failure p job).suggested_delay = 0)
  ∧ (matchesAny permanent_patterns msg = false →
     matchesAny recoverable_patterns msg = true →
       (analyze_failure p job).failure_type = .recoverable ∧
       (analyze_failure p job).is_retryable = true ∧
       (analyze_failure p job).suggested_delay =
         calculate_delay p job.retry_count * 2)
  ∧ (matchesAny permanent_patterns msg = false →
     matchesAny recoverable_patterns msg = false →
     matchesAny temporary_patterns msg = true →
       (analyze_failure p job).failure_type = .temporary ∧
       (analyze_failure p job).is_retryable = true ∧
       (analyze_failure p job).suggested_delay = calculate_delay p job.retry_count)
  ∧ (matchesAny permanent_patterns msg = false →
     matchesAny recoverable_patterns msg = false →
     matchesAny temporary_patterns msg = false →
       (analyze_failure p job).failure_type = .temporary ∧
       ((analyze_failure p job).is_retryable = true ↔
         job.retry_count < p.max_retries) ∧
       (analyze_failure p job).suggested_delay = calculate_delay p job.retry_count) := by
  intro msg
  refine ⟨fun h1 => ?_, fun h1 h2 => ?_, fun h1 h2 h3 => ?_, fun h1 h2 h3 => ?_⟩
  · simp [analyze_failure, msg, h1]
  · simp [analyze_failure, msg, h1, h2]
  · simp [analyze_failure, msg, h1, h2, h3]
  · simp [analyze_failure, msg, h1, h2, h3]

/-- A job whose error text holds a permanent cue ("unsupported") next to
temporary-sounding words ("busy", "connection"), fixture for C6's
witness. -/
def c6_job : EncodingJob :=
  { job_id := "job-6", chapter_id := "chapter-6", book_id := "book-6"
    input_path := "/in6.wav", output_path := "/out6.m4a"
    status := .failed
    error_message := some "Unsupported codec: device busy, connection reset" }

/-- C6 witness: `c6_analyze_failure_ordering` applied to `c6_job`, whose
error text matches both a permanent and two temporary patterns — the
permanent list wins. -/
theorem c6_analyze_failure_witness :
    (analyze_failure {} c6_job).failure_type = .permanent ∧
    (analyze_failure {} c6_job).is_retryable = false ∧
    (analyze_failure {} c6_job).suggested_delay = 0 :=
  (c6_analyze_failure_ordering {} c6_job).1 (by decide)

/-! ## C7 — exponential backoff -/

/-- C7: `_calculate_delay n` equals
`min(base_delay * backoff_multiplier ^ n, max_delay)`; for a policy with
positive base delay and multiplier at least 1 it is non-decreasing in `n`;
and it never exceeds `max_delay`. -/
theorem c7_calculate_delay_spec (p : RetryPolicy) (n : Nat)
    (hbase : 0 < p.base_delay) (hmult : 1 ≤ p.backoff_multiplier) :
    calculate_delay p n = min (p.base_delay * p.backoff_multiplier ^ n) p.max_delay
  ∧ calculate_delay p n ≤ calculate_delay p (n + 1)
  ∧ calculate_delay p n ≤ p.max_delay := by
  refine ⟨rfl, ?_, min_le_right _ _⟩
  have hpow : p.backoff_multiplier ^ n ≤ p.backoff_multiplier ^ (n + 1) :=
    pow_le_pow_right₀ hmult (Nat.le_succ n)
  exact min_le_min (mul_le_mul_of_nonneg_left hpow hbase.le) le_rfl

/-- C7 witness: `c7_calculate_delay_spec` at the default policy
(base 1, multiplier 2, ceiling 60) and `n = 2`. -/
theorem c7_calculate_delay_witness :
    calculate_delay {} 2 = min ((1 : ℚ) * 2 ^ 2) 60
  ∧ calculate_delay {} 2 ≤ calculate_delay {} 3
  ∧ calculate_delay {} 2 ≤ (60 : ℚ) :=
  c7_calculate_delay_spec {} 2 (by norm_num) (by norm_num)

/-! ## C8 — temp-file cleanup scoping -/

/-- C8: `cleanup_temp_files` keeps exactly the files whose name does not
contain the chapter id — the remaining set is the set before minus the
matching subset — its removed count is the number of matching files, and
every temp file whose name does not embed the chapter id (in particular a
sibling chapter's files) survives with its name and size intact. -/
theorem c8_cleanup_temp_files_spec (chapter_id : String) (temp_dir : List TempFile) :
    (∀ f : TempFile, f ∈ (cleanup_temp_files chapter_id temp_dir).fst ↔
       f ∈ temp_dir ∧ strContains f.name chapter_id = false)
  ∧ (cleanup_temp_files chapter_id temp_dir).snd =
      (temp_dir.filter (fun f => strContains f.name chapter_id)).length
  ∧ (∀ f ∈ temp_dir, strContains f.name chapter_id = false →
       f ∈ (cleanup_temp_files chapter_id temp_dir).fst) := by
  refine ⟨fun f => ?_, rfl, fun f hf hmatch => ?_⟩
  · simp [cleanup_temp_files, List.mem_filter]
  · simp [cleanup_temp_files, List.mem_filter, hf, hmatch]

/-- A shared temp directory holding two chapters' temp files, fixture for
C8's witness. -/
def c8_dir : List TempFile :=
  [{ name := "temp_chapter-a_intro.wav", size := 1000 },
   { name := "temp_chapter-b_intro.wav", size := 2000 },
   { name := "temp_chapter-a_intro.m4a", size := 300 }]

/-- C8 witness: `c8_cleanup_temp_files_spec` applied to the shared
directory — cleaning chapter-a's temp files leaves chapter-b's file (with
its size) in place. -/
theorem c8_cleanup_temp_files_witness :
    ({ name := "temp_chapter-b_intro.wav", size := 2000 } : TempFile) ∈
      (cleanup_temp_files "chapter-a" c8_dir).fst :=
  (c8_cleanup_temp_files_spec "chapter-a" c8_dir).2.2
    { name := "temp_chapter-b_intro.wav", size := 2000 } (by decide) (by decide)

/-! ## C9 — the encoding timeout -/

/-- C9 counterexample: under the production environment configuration,
whose `encoding_timeout` field is 1800 seconds, `encode_audio` still runs
the subprocess with its hardcoded 300-second timeout — the timeout is not
taken from the injected environment configuration. -/
theorem c9_timeout_not_from_config :
    encode_audio_subprocess_timeout production_config.encoding_config = 300
  ∧ production_config.encoding_timeout = 1800
  ∧ encode_audio_subprocess_timeout production_config.encoding_config ≠
      production_config.encoding_timeout := by
  decide

/-- C9 amended: `encode_audio` runs the external transcoding process under
a hard timeout fixed at 300 seconds (5 minutes) — a literal, not a value
of the injected configuration — and when the timeout elapses it returns
`success = false` with the error string
"Encoding timeout (exceeded 5 minutes)" rather than raising; that string
contains "timeout", so for any job carrying it the Retry Manager
classifies the failure as temporary and retryable. -/
theorem c9_encode_audio_timeout_spec (config : EncodingConfig)
    (input_path output_path : String) (originalSize : Nat)
    (p : RetryPolicy) (job : EncodingJob)
    (hjob : job.error_message = some "Encoding timeout (exceeded 5 minutes)") :
    encode_audio_subprocess_timeout config = 300
  ∧ (encode_audio config input_path output_path true originalSize .timedOut).success
      = false
  ∧ (encode_audio config input_path output_path true originalSize .timedOut).error
      = some "Encoding timeout (exceeded 5 minutes)"
  ∧ strContains (lowerStr "Encoding timeout (exceeded 5 minutes)") "timeout" = true
  ∧ (analyze_failure p job).failure_type = .temporary
  ∧ (analyze_failure p job).is_retryable = true := by
  have h1 : matchesAny permanent_patterns
      (lowerStr "Encoding timeout (exceeded 5 minutes)") = false := by decide
  have h2 : matchesAny recoverable_patterns
      (lowerStr "Encoding timeout (exceeded 5 minutes)") = false := by decide
  have h3 : matchesAny temporary_patterns
      (lowerStr "Encoding timeout (exceeded 5 minutes)") = true := by decide
  refine ⟨rfl, rfl, rfl, by decide, ?_, ?_⟩ <;>
    simp [analyze_failure, hjob, h1, h2, h3]

/-- A job carrying the timeout error string, fixture for C9's witness. -/
def c9_job : EncodingJob :=
  { job_id := "job-9", chapter_id := "chapter-9", book_id := "book-9"
    input_path := "/in9.wav", output_path := "/out9.m4a"
    status := .failed
    error_message := some "Encoding timeout (exceeded 5 minutes)" }

/-- C9 witness: `c9_encode_audio_timeout_spec` at the production encoding
configuration and the concrete job `c9_job`. -/
theorem c9_encode_audio_timeout_witness :
    encode_audio_subprocess_timeout production_config.encoding_config = 300
  ∧ (encode_audio production_config.encoding_config "/in9.wav" "/out9.m4a"
      true 1000 .timedOut).success = false
  ∧ (encode_audio production_config.encoding_config "/in9.wav" "/out9.m4a"
      true 1000 .timedOut).error = some "Encoding timeout (exceeded 5 minutes)"
  ∧ strContains (lowerStr "Encoding timeout (exceeded 5 minutes)") "timeout" = true
  ∧ (analyze_failure {} c9_job).failure_type = .temporary
  ∧ (analyze_failure {} c9_job).is_retryable = true :=
  c9_encode_audio_timeout_spec production_config.encoding_config "/in9.wav"
    "/out9.m4a" 1000 {} c9_job rfl

/-! ## C10 — the recoverable suggested delay -/

/-- A job whose error text matches the recoverable pattern "disk space"
and also the permanent pattern "corrupted". -/
def c10_job : EncodingJob :=
  { job_id := "job-10", chapter_id := "chapter-10", book_id := "book-10"
    input_path := "/in10.wav", output_path := "/out10.m4a"
    status := .failed, error_message := some "corrupted disk space" }

/-- C10 counterexample: the error text "corrupted disk space" matches the
recoverable pattern "disk space", but `analyze_failure` (default policy,
retry count 0) returns suggested delay 0 — the permanent list matches
first — not the claimed `2 * min(base * mult ^ 0, max) = 2`. -/
theorem c10_recoverable_with_permanent_cue :
    strContains (lowerStr (c10_job.error_message.getD "")) "disk space" = true
  ∧ (analyze_failure {} c10_job).suggested_delay = 0
  ∧ 2 * min (({} : RetryPolicy).base_delay *
        ({} : RetryPolicy).backoff_multiplier ^ c10_job.retry_count)
        ({} : RetryPolicy).max_delay = 2
  ∧ (analyze_failure {} c10_job).suggested_delay ≠
      2 * min (({} : RetryPolicy).base_delay *
        ({} : RetryPolicy).backoff_multiplier ^ c10_job.retry_count)
        ({} : RetryPolicy).max_delay := by
  refine ⟨by decide, rfl, ?_, ?_⟩
  · show 2 * min ((1 : ℚ) * 2 ^ 0) 60 = 2
    norm_num
  · show (0 : ℚ) ≠ 2 * min ((1 : ℚ) * 2 ^ 0) 60
    norm_num

/-- C10 amended: for every job whose error text matches a recoverable
pattern and no permanent pattern, `analyze_failure` returns suggested
delay `2 * min(base_delay * backoff_multiplier ^ retry_count, max_delay)`;
once the computed backoff reaches the `max_delay` ceiling the suggested
delay equals `2 * max_delay`, which for a positive ceiling strictly
exceeds it. -/
theorem c10_recoverable_delay_spec (p : RetryPolicy) (job : EncodingJob)
    (hperm : matchesAny permanent_patterns
      (lowerStr (job.error_message.getD "")) = false)
    (hrec : matchesAny recoverable_patterns
      (lowerStr (job.error_message.getD "")) = true) :
    (analyze_failure p job).suggested_delay =
      2 * min (p.base_delay * p.backoff_multiplier ^ job.retry_count) p.max_delay
  ∧ (p.max_delay ≤ p.base_delay * p.backoff_multiplier ^ job.retry_count →
      (analyze_failure p job).suggested_delay = 2 * p.max_delay
      ∧ (0 < p.max_delay →
          p.max_delay < (analyze_failure p job).suggested_delay)) := by
  have hdelay : (analyze_failure p job).suggested_delay =
      calculate_delay p job.retry_count * 2 := by
    simp [analyze_failure, hperm, hrec]
  constructor
  · rw [hdelay, calculate_delay]
    ring
  · intro hceil
    have hmin : calculate_delay p job.retry_count = p.max_delay := by
      rw [calculate_delay, min_eq_right hceil]
    constructor
    · rw [hdelay, hmin]; ring
    · intro hpos
      rw [hdelay, hmin]
      linarith

/-- A job with a pure "disk space" error and retry count 6, at which the
default policy's backoff `1 * 2 ^ 6 = 64` exceeds the ceiling 60, fixture
for C10's witness. -/
def c10_witness_job : EncodingJob :=
  { job_id := "job-10w", chapter_id := "chapter-10w", book_id := "book-10w"
    input_path := "/in.wav", output_path := "/out.m4a"
    status := .failed, error_message := some "Insufficient disk space"
    retry_count := 6 }

/-- C10 witness: `c10_recoverable_delay_spec` at the default policy and
`c10_witness_job`, whose backoff has reached the ceiling. -/
theorem c10_recoverable_delay_witness :
    ((analyze_failure {} c10_witness_job).suggested_delay =
      2 * min (({} : RetryPolicy).base_delay *
        ({} : RetryPolicy).backoff_multiplier ^ c10_witness_job.retry_count)
        ({} : RetryPolicy).max_delay)
  ∧ (({} : RetryPolicy).max_delay ≤ ({} : RetryPolicy).base_delay *
        ({} : RetryPolicy).backoff_multiplier ^ c10_witness_job.retry_count →
      (analyze_failure {} c10_witness_job).suggested_delay =
        2 * ({} : RetryPolicy).max_delay
      ∧ (0 < ({} : RetryPolicy).max_delay →
          ({} : RetryPolicy).max_delay <
            (analyze_failure {} c10_witness_job).suggested_delay)) :=
  c10_recoverable_delay_spec {} c10_witness_job (by decide) (by decide)
